import Mathlib

/-!
Verification development for the Suno backend (`src/backend/app/main.py`),
a FastAPI service that converts YouTube videos to MP3 and serves the result
through a token-keyed download endpoint.

The Python source is shallowly embedded below:
pure string validation (the pydantic validators and the `re.match` token
check) becomes executable Lean functions on `String`; filesystem-dependent
behaviour (`os.path.realpath`, `os.path.exists`, `os.access`) is abstracted
into a record of oracles `FS`, and each handler returns its HTTP response
together with the list of filesystem operations it performed; the background
extraction job `download_audio` is modelled as a function of the external
tool run's observable outcome; the retention sweeper's loop body is modelled
as one sweep over a directory listing.
-/

/-- Model of Python `str.endswith`: the candidate suffix is a suffix of the
string (character-wise).  Used where `main.py` calls `filename.endswith`. -/
def pyEndsWith (s suffix : String) : Bool :=
  decide (suffix.data <:+ s.data)

/-- Model of Python `str.startswith`: the candidate is a character-wise
prefix of the string.  Used for the `real_path.startswith(...)` directory
containment check in the `download` handler. -/
def pyStartsWith (s pre : String) : Bool :=
  pre.data.isPrefixOf s.data

/-- Model of `os.path.join(a, b)` (posixpath, two arguments): if `b` is
absolute it replaces `a`; otherwise `b` is appended, inserting a slash
unless `a` already ends in one. -/
def osPathJoin (a b : String) : String :=
  if pyStartsWith b "/" then b
  else if pyEndsWith a "/" then a ++ b
  else a ++ "/" ++ b

/-- `MAX_FILE_SIZE_MB = 100` from the configuration block of `main.py`. -/
def MAX_FILE_SIZE_MB : Nat := 100

/-- `FILE_RETENTION_HOURS = 24` from the configuration block of `main.py`. -/
def FILE_RETENTION_HOURS : Nat := 24

/-- `ALLOWED_EXTENSIONS = {".mp3"}` from the configuration block. -/
def ALLOWED_EXTENSIONS : List String := [".mp3"]

/-- Character class `[A-Za-z0-9_-]` of the YouTube video-id part of the
URL regex in `validate_youtube_url`. -/
def isIdChar (c : Char) : Bool :=
  ('A' ≤ c && c ≤ 'Z') || ('a' ≤ c && c ≤ 'z') || ('0' ≤ c && c ≤ '9') ||
    c = '_' || c = '-'

/-- Python regex class `\s`, restricted to its ASCII members
(space, tab, newline, carriage return, vertical tab, form feed); the
Unicode extras never occur in the inputs considered here. -/
def isPySpace (c : Char) : Bool :=
  c = ' ' || c = '\t' || c = '\n' || c = '\r' || c = '\x0B' || c = '\x0C'

/-- Whether a character list matches the query-parameter tail
`([\?&][^&\s]*)*` of the URL regex.  A sequence of such groups covers the
list exactly when the list is empty, or it begins with `?` or `&` and
contains no whitespace: every group must open with `?` or `&`, group bodies
exclude `&` and whitespace, and any interior `&` simply opens a new group. -/
def paramsMatch (cs : List Char) : Bool :=
  match cs with
  | [] => true
  | c :: _ => (c = '?' || c = '&') && cs.all (fun d => !(isPySpace d))

/-- Whether a character list matches `[A-Za-z0-9_-]+([\?&][^&\s]*)*`, the
part of the URL regex after the host prefix.  The id part must take the
maximal run of id characters: a shorter id leaves an id character at the
head of the remainder, which can never open a `[\?&]...` group. -/
def tailMatch (cs : List Char) : Bool :=
  let idPart := cs.takeWhile isIdChar
  decide (1 ≤ idPart.length) && paramsMatch (cs.drop idPart.length)

/-- Whether the whole string matches the URL regex of
`validate_youtube_url` without the end anchor's newline tolerance:
`(https?://)?(www\.)?(youtube\.com/watch\?v=|youtu\.be/)` followed by
`tailMatch`.  All twelve prefix alternatives are tried (exact
backtracking over the finite alternation). -/
def coreUrlMatch (cs : List Char) : Bool :=
  ["https://", "http://", ""].any fun sch =>
    ["www.", ""].any fun w =>
      ["youtube.com/watch?v=", "youtu.be/"].any fun h =>
        let pre := (sch ++ w ++ h).data
        pre.isPrefixOf cs && tailMatch (cs.drop pre.length)

/-- Model of the `validate_youtube_url` pydantic validator of `main.py`:
`re.match(youtube_regex, v)` succeeds.  Python's `$` also matches just
before a single trailing newline, so a string whose last character is a
newline matches when the rest does. -/
def validate_youtube_url (v : String) : Bool :=
  coreUrlMatch v.data ||
    (match v.data.getLast? with
     | some c => c = '\n' && coreUrlMatch (v.data.dropLast)
     | none => false)

/-- Model of the `validate_quality` pydantic validator of `main.py`:
the quality must be one of `high`, `medium`, `low`. -/
def validate_quality (v : String) : Bool :=
  ["high", "medium", "low"].contains v

/-- An HTTP error response as raised through `HTTPException`: a status
code and the `detail` string. -/
structure HResp where
  status : Nat
  detail : String
deriving DecidableEq

/-- The JSON body returned by a successful POST `/convert`. -/
structure ConvertOk where
  download_url : String
  statusField : String
  message : String
  estimated_wait_time : String
deriving DecidableEq

/-- Outcome of a POST `/convert` request: HTTP 200 with the JSON body, or
an `HTTPException`. -/
inductive ConvertResp where
  | ok : ConvertOk → ConvertResp
  | err : HResp → ConvertResp
deriving DecidableEq

/-- The HTTP status code of a `/convert` outcome. -/
def convertStatus : ConvertResp → Nat
  | .ok _ => 200
  | .err e => e.status

/-- The background extraction job scheduled by `convert` via
`background_tasks.add_task(download_audio, url, quality, output_path)`. -/
structure Job where
  youtube_url : String
  quality : String
  filename : String
deriving DecidableEq

/-- The destination path derived in `convert`:
`os.path.join(DOWNLOAD_FOLDER, f"{file_id}.mp3")`. -/
def convertOutputPath (folder file_id : String) : String :=
  osPathJoin folder (file_id ++ ".mp3")

/-- Model of the `convert` handler body of `main.py`, entered after request
validation succeeded.  `folder` is the module constant `DOWNLOAD_FOLDER`
(an environment-dependent absolute path), `free` the free-byte count
reported by `shutil.disk_usage`, and `file_id` the string of the
`uuid.uuid4()` value generated for this request.  Returns the response and
the background job scheduled, if any. -/
def convertHandler (folder : String) (free : Nat) (file_id : String)
    (youtube_url quality : String) : ConvertResp × Option Job :=
  let output_path := convertOutputPath folder file_id
  if free < MAX_FILE_SIZE_MB * 1024 * 1024 * 2 then
    (.err ⟨507, "Insufficient storage space. Please try again later."⟩, none)
  else
    (.ok ⟨"/download/" ++ file_id, "processing",
      "Your file is being processed. Please wait a few moments before downloading.",
      "15-30 seconds"⟩,
     some ⟨youtube_url, quality, output_path⟩)

/-- FastAPI translates a `ValueError` raised by a pydantic `@validator`
into a `RequestValidationError` response whose status is
422 Unprocessable Entity; the handler body never runs.  There is no custom
validation-error handler in `main.py`, so the default applies. -/
def requestValidationStatus : Nat := 422

/-- POST `/convert` as observed by a client: pydantic first runs the two
validators of `ConvertRequest` (a failure yields the framework's 422
response and no handler execution), then the handler body runs. -/
def convertEndpoint (folder : String) (free : Nat) (file_id : String)
    (youtube_url quality : String) : ConvertResp × Option Job :=
  if !(validate_youtube_url youtube_url) then
    (.err ⟨requestValidationStatus,
      "Invalid YouTube URL. Please provide a valid YouTube video URL."⟩, none)
  else if !(validate_quality quality) then
    (.err ⟨requestValidationStatus, "Quality must be high, medium, or low"⟩, none)
  else
    convertHandler folder free file_id youtube_url quality

/-- Character class `[0-9a-f-]` of the token regex in the `download`
handler. -/
def isTokenChar (c : Char) : Bool :=
  ('0' ≤ c && c ≤ '9') || ('a' ≤ c && c ≤ 'f') || c = '-'

/-- Model of `re.match(r'^[0-9a-f-]{36}$', file_id)` in the `download`
handler: thirty-six characters from `[0-9a-f-]`, where Python's `$` also
accepts a single trailing newline after them. -/
def reMatchToken (file_id : String) : Bool :=
  let cs := file_id.data
  (cs.length == 36 && cs.all isTokenChar) ||
    (cs.length == 37 && (cs.take 36).all isTokenChar && cs.getLast? == some '\n')

/-- Filesystem oracles for the `download` handler: `realpath` models
`os.path.realpath` (symlink and `..` resolution, so an adversarial
filesystem may resolve a path outside its textual parent), `pathExists`
models `os.path.exists`, and `readable` models `os.access(path, R_OK)`. -/
structure FS where
  realpath : String → String
  pathExists : String → Bool
  readable : String → Bool

/-- The candidate path constructed in the `download` handler:
`os.path.join(DOWNLOAD_FOLDER, f"{file_id}.mp3")`. -/
def downloadCandidatePath (folder file_id : String) : String :=
  osPathJoin folder (file_id ++ ".mp3")

/-- Result of GET `/download/{file_id}`: the response (status 200 with
empty detail stands for the `FileResponse` stream) paired with the trace
of filesystem operations the handler performed, in order.  The trace
makes "before any filesystem access" provable. -/
structure DownloadOut where
  resp : HResp
  fsTrace : List String
deriving DecidableEq

/-- Model of the `download` handler of `main.py`.  Control flow follows the
source: token regex check (400), the always-true extension check (400),
then a `try` block that computes `realpath` of the candidate path and of
`DOWNLOAD_FOLDER` and raises `HTTPException(403)` when the former does not
start with the latter — but the attached `except Exception` clause catches
every `Exception`, *including* that `HTTPException` (a subclass of
`Exception` in FastAPI), and raises `HTTPException(400, "Invalid file
path")` instead; then the existence check (404), the readability check
(500), and finally the `FileResponse` (200). -/
def download (folder : String) (fs : FS) (file_id : String) : DownloadOut :=
  if !(reMatchToken file_id) then
    ⟨⟨400, "Invalid file ID format"⟩, []⟩
  else
    let filename := file_id ++ ".mp3"
    if !(pyEndsWith filename ".mp3") then
      ⟨⟨400, "Invalid file type requested"⟩, []⟩
    else
      let path := downloadCandidatePath folder file_id
      let rp := fs.realpath path
      let rd := fs.realpath folder
      let trace0 := ["realpath " ++ path, "realpath " ++ folder]
      let tryOutcome : Except HResp Unit :=
        if !(pyStartsWith rp rd) then .error ⟨403, "Access denied"⟩ else .ok ()
      match tryOutcome with
      | .error _ => ⟨⟨400, "Invalid file path"⟩, trace0⟩
      | .ok () =>
        if !(fs.pathExists path) then
          ⟨⟨404, "File not found. It might still be processing or has expired."⟩,
            trace0 ++ ["exists " ++ path]⟩
        else if !(fs.readable path) then
          ⟨⟨500, "Server cannot access the file. Please try again later."⟩,
            trace0 ++ ["exists " ++ path, "access " ++ path]⟩
        else
          ⟨⟨200, ""⟩, trace0 ++ ["exists " ++ path, "access " ++ path]⟩

/-- Observable outcome of the `yt-dlp` subprocess run inside
`download_audio`: whether `subprocess.run(..., check=True)` returned
without raising `CalledProcessError`, whether a file exists at the
destination afterwards, and its size in bytes. -/
structure ToolRun where
  success : Bool
  produced : Bool
  sizeBytes : Nat
deriving DecidableEq

/-- Outcome of one background extraction job: normal return, or an
uncaught exception (the job is failed; `detail` names the Python
exception's message). -/
inductive JobResult where
  | done : JobResult
  | failed : String → JobResult
deriving DecidableEq

/-- Model of `download_audio` in `main.py` as a function of the tool run's
outcome.  Returns whether a file remains at the destination path, and the
job result.  The size test is `getsize(filename) / (1024*1024) >
MAX_FILE_SIZE_MB`, which holds exactly when the byte count exceeds
`MAX_FILE_SIZE_MB * 1024 * 1024` (the boundary values are exactly
representable in the float division).  The `except` clause catches only
`subprocess.CalledProcessError`; the `ValueError` and `FileNotFoundError`
raised in the success path propagate out and fail the job. -/
def download_audio (run : ToolRun) : Bool × JobResult :=
  if run.success then
    if run.produced then
      if run.sizeBytes > MAX_FILE_SIZE_MB * 1024 * 1024 then
        (false, .failed ("File size exceeds limit of 100MB"))
      else
        (true, .done)
    else
      (false, .failed "Failed to create output file")
  else
    (false, .failed "YouTube download failed")

/-- A directory entry seen by the retention sweeper: a file name and its
last-modified time.  Times are in seconds (the sub-second part of
`os.path.getmtime` is irrelevant at the hour granularity used here). -/
structure FileEntry where
  name : String
  mtime : Int
deriving DecidableEq

/-- The `await asyncio.sleep(3600)` at the end of each iteration of
`cleanup_old_files`: the loop repeats after a fixed one-hour wait. -/
def cleanupSleepSeconds : Nat := 3600

/-- One iteration of the `cleanup_old_files` loop over a directory
listing at wall-clock time `now`: a file is removed exactly when
`now - file_modified > timedelta(hours=FILE_RETENTION_HOURS)`; the
surviving listing is returned. -/
def cleanup_sweep (now : Int) (files : List FileEntry) : List FileEntry :=
  files.filter fun f =>
    !(decide (now - f.mtime > (FILE_RETENTION_HOURS : Int) * 3600))

/-- Lexical shape of a `str(uuid.uuid4())` value: thirty-six characters,
hyphens at positions 8, 13, 18 and 23, the version digit `4` at position
14, a variant character from `89ab` at position 19, and lowercase
hexadecimal digits elsewhere. -/
def isUuid4String (s : String) : Bool :=
  let cs := s.data
  cs.length == 36 && (List.range 36).all fun i =>
    let c := cs.getD i ' '
    if i = 8 || i = 13 || i = 18 || i = 23 then c == '-'
    else if i = 14 then c == '4'
    else if i = 19 then c == '8' || c == '9' || c == 'a' || c == 'b'
    else ('0' ≤ c && c ≤ '9') || ('a' ≤ c && c ≤ 'f')

/-- A filesystem with no surprises: canonicalisation is the identity and
nothing exists.  Stands for a fresh storage directory containing no
symlinks and no files. -/
def plainFS : FS where
  realpath := fun p => p
  pathExists := fun _ => false
  readable := fun _ => false

/-- A filesystem in which the candidate file of one lexically valid token
is a symlink pointing outside the storage directory, so `os.path.realpath`
resolves it to `/etc/passwd`; canonicalisation of every other path is the
identity. -/
def escapeFS : FS where
  realpath := fun p =>
    if p = "/srv/downloads/0123456789abcdef0123456789abcdef0123.mp3" then "/etc/passwd"
    else p
  pathExists := fun _ => false
  readable := fun _ => false

/-- The token shape named by the claim and the spec, taken at the spec's
words: exactly thirty-six characters, each a hexadecimal digit or a
hyphen.  Compare with `reMatchToken`, the model of the code's `re.match`
call, which in addition tolerates one trailing newline because Python's
`$` anchor also matches just before a final newline. -/
def specTokenShape (file_id : String) : Bool :=
  file_id.data.length == 36 && file_id.data.all isTokenChar

theorem pyEndsWith_append_self (s t : String) : pyEndsWith (s ++ t) t = true := by
  unfold pyEndsWith
  rw [decide_eq_true_iff, String.data_append]
  exact List.suffix_append s.data t.data

theorem pyEndsWith_append_left (s t u : String) (h : pyEndsWith t u = true) :
    pyEndsWith (s ++ t) u = true := by
  unfold pyEndsWith at h ⊢
  rw [decide_eq_true_iff] at h ⊢
  rw [String.data_append]
  exact h.trans (List.suffix_append s.data t.data)

theorem mp3_suffix_of_join (folder file_id : String) :
    pyEndsWith (osPathJoin folder (file_id ++ ".mp3")) ".mp3" = true := by
  unfold osPathJoin
  split
  · exact pyEndsWith_append_self file_id ".mp3"
  · split
    · exact pyEndsWith_append_left folder _ _ (pyEndsWith_append_self file_id ".mp3")
    · exact pyEndsWith_append_left (folder ++ "/") _ _ (pyEndsWith_append_self file_id ".mp3")

theorem length_36_of_isUuid4String (s : String) (h : isUuid4String s = true) :
    s.length = 36 := by
  unfold isUuid4String at h
  simp only [Bool.and_eq_true, beq_iff_eq] at h
  exact h.1

set_option maxRecDepth 40000

/-- Claim C9: every file path the system creates or serves in the storage
directory ends in the single allowed audio extension `.mp3`: the convert
handler derives the destination path as `<token>.mp3` and the download
handler constructs the candidate path as `<token>.mp3`, both joined under
the storage directory, and `.mp3` is the single allowed extension. -/
theorem stored_paths_end_in_mp3 (folder file_id : String) :
    pyEndsWith (convertOutputPath folder file_id) ".mp3" = true ∧
    pyEndsWith (downloadCandidatePath folder file_id) ".mp3" = true ∧
    ALLOWED_EXTENSIONS = [".mp3"] :=
  ⟨mp3_suffix_of_join folder file_id, mp3_suffix_of_join folder file_id, rfl⟩

/-- Claim C10: in the download handler the extension check
`filename.endswith(".mp3")` holds for every input token, because
`filename` is the token with `".mp3"` appended; hence the response
`400 "Invalid file type requested"` is unreachable, for every filesystem
and every token. -/
theorem invalid_file_type_branch_unreachable (folder : String) (fs : FS) (file_id : String) :
    pyEndsWith (file_id ++ ".mp3") ".mp3" = true ∧
    (download folder fs file_id).resp ≠ ⟨400, "Invalid file type requested"⟩ := by
  refine ⟨pyEndsWith_append_self file_id ".mp3", ?_⟩
  unfold download
  by_cases h1 : reMatchToken file_id
  · simp only [h1, pyEndsWith_append_self, Bool.not_true, Bool.false_eq_true, if_false]
    split
    · intro hc
      exact absurd (congrArg HResp.detail hc)
        (by decide : ¬ ("Invalid file path" : String) = "Invalid file type requested")
    · split
      · intro hc
        exact absurd (congrArg HResp.detail hc)
          (by decide : ¬ ("File not found. It might still be processing or has expired." : String) =
            "Invalid file type requested")
      · split
        · intro hc
          exact absurd (congrArg HResp.status hc) (by decide : ¬ (500 : Nat) = 400)
        · intro hc
          exact absurd (congrArg HResp.status hc) (by decide : ¬ (200 : Nat) = 400)
  · simp [h1]

/-- Claim C4 counterexample: the token of thirty-six zeros followed by a
newline does not have the 36-character hexadecimal-and-hyphen shape the
claim names, yet the handler does not answer 400: Python's `re.match`
anchor `$` also matches just before a final newline, so the lexical check
passes, the filesystem is consulted, and the response is 404. -/
theorem download_token_trailing_newline_counterexample :
    specTokenShape "000000000000000000000000000000000000\n" = false ∧
    reMatchToken "000000000000000000000000000000000000\n" = true ∧
    (download "/srv/downloads" plainFS "000000000000000000000000000000000000\n").resp.status = 404 ∧
    (download "/srv/downloads" plainFS "000000000000000000000000000000000000\n").fsTrace ≠ [] := by
  decide

/-- Claim C4 (amended): for every token string that the handler's
`re.match(r'^[0-9a-f-]{36}$', ...)` check rejects — that is, any string
that is not thirty-six hexadecimal-or-hyphen characters optionally
followed by one trailing newline — GET `/download/{token}` answers
400 "Invalid file ID format" and performs no filesystem operation
(the trace is empty), for every filesystem. -/
theorem download_bad_token_rejected_before_fs (folder : String) (fs : FS) (t : String)
    (h : reMatchToken t = false) :
    download folder fs t = ⟨⟨400, "Invalid file ID format"⟩, []⟩ := by
  unfold download
  simp [h]

/-- Witness for `download_bad_token_rejected_before_fs` at the
path-traversal token of the claim. -/
theorem download_bad_token_rejected_before_fs_witness :
    download "/srv/downloads" plainFS "../../etc/passwd" = ⟨⟨400, "Invalid file ID format"⟩, []⟩ :=
  download_bad_token_rejected_before_fs "/srv/downloads" plainFS "../../etc/passwd" (by decide)

/-- Claim C5: for every well-formed token whose file `<token>.mp3` does
not exist in the storage directory (and whose canonical path stays inside
the directory, as it does in a storage directory free of symlinks), the
handler answers 404 with the message conflating "still processing" and
"expired or never created". -/
theorem download_missing_file_404 (folder : String) (fs : FS) (t : String)
    (htok : reMatchToken t = true)
    (hpath : pyStartsWith (fs.realpath (downloadCandidatePath folder t))
      (fs.realpath folder) = true)
    (hmiss : fs.pathExists (downloadCandidatePath folder t) = false) :
    (download folder fs t).resp =
      ⟨404, "File not found. It might still be processing or has expired."⟩ := by
  unfold download
  simp [htok, hpath, hmiss, pyEndsWith_append_self]

/-- Witness for `download_missing_file_404`: a well-formed token on a
fresh storage directory containing no files. -/
theorem download_missing_file_404_witness :
    (download "/srv/downloads" plainFS "0123456789abcdef0123456789abcdef0123").resp =
      ⟨404, "File not found. It might still be processing or has expired."⟩ :=
  download_missing_file_404 "/srv/downloads" plainFS "0123456789abcdef0123456789abcdef0123"
    (by decide) (by decide) (by decide)

/-- Claim C1 (code bug): a request whose token passes the lexical check
but whose candidate path canonicalises outside the storage directory is
answered 400 "Invalid file path", never 403.  The
`HTTPException(403, "Access denied")` raised inside the `try` block is a
subclass of `Exception`, so the handler's own `except Exception` clause
catches it and raises `HTTPException(400, "Invalid file path")` instead;
the 403 "Access denied" response written in the source is unreachable.
Evaluated here at a filesystem where the candidate file is a symlink
resolving to `/etc/passwd`. -/
theorem download_path_escape_answers_400_not_403 :
    reMatchToken "0123456789abcdef0123456789abcdef0123" = true ∧
    pyStartsWith
      (escapeFS.realpath (downloadCandidatePath "/srv/downloads"
        "0123456789abcdef0123456789abcdef0123"))
      (escapeFS.realpath "/srv/downloads") = false ∧
    (download "/srv/downloads" escapeFS "0123456789abcdef0123456789abcdef0123").resp =
      ⟨400, "Invalid file path"⟩ ∧
    (download "/srv/downloads" escapeFS "0123456789abcdef0123456789abcdef0123").resp.status ≠ 403 := by
  decide

/-- Claim C2 counterexample: at the claim's own example inputs — the
malformed URLs `not-a-url` and `https://example.com/watch?v=x`, and the
quality `ultra` — the response status is 422, not the claimed 400:
pydantic validator failures surface as FastAPI request-validation errors. -/
theorem convert_invalid_request_status_not_400 :
    convertStatus (convertEndpoint "/srv/downloads" 209715200
      "123e4567-e89b-42d3-a456-426614174000" "not-a-url" "high").1 = 422 ∧
    convertStatus (convertEndpoint "/srv/downloads" 209715200
      "123e4567-e89b-42d3-a456-426614174000" "https://example.com/watch?v=x" "high").1 = 422 ∧
    convertStatus (convertEndpoint "/srv/downloads" 209715200
      "123e4567-e89b-42d3-a456-426614174000" "https://www.youtube.com/watch?v=abc" "ultra").1 = 422 ∧
    (422 : Nat) ≠ 400 := by
  decide

/-- Claim C2 (amended): for every POST `/convert` request whose
`youtube_url` fails the YouTube watch/short-link pattern or whose
`quality` is outside `{high, medium, low}`, the response status is 422
(the FastAPI request-validation status), for every storage state. -/
theorem convert_invalid_request_422 (folder : String) (free : Nat) (fid url q : String)
    (h : validate_youtube_url url = false ∨ validate_quality q = false) :
    convertStatus (convertEndpoint folder free fid url q).1 = requestValidationStatus := by
  unfold convertEndpoint
  rcases h with h | h
  · simp [h, convertStatus]
  · by_cases hu : validate_youtube_url url
    · simp [hu, h, convertStatus]
    · simp [hu, convertStatus]

/-- Witness for `convert_invalid_request_422` at the malformed URL
`not-a-url`. -/
theorem convert_invalid_request_422_witness :
    convertStatus (convertEndpoint "/srv/downloads" 0 "x" "not-a-url" "high").1 =
      requestValidationStatus :=
  convert_invalid_request_422 "/srv/downloads" 0 "x" "not-a-url" "high" (Or.inl (by decide))

/-- Claim C3 counterexample: with free space exactly equal to twice the
maximum file size, the request is accepted (status 200) and a background
job is scheduled, although the free space does not strictly exceed twice
the maximum — the code's guard is `free < 2 * max`, so the claimed
strict-excess precondition does not hold on the boundary. -/
theorem convert_storage_boundary_accepts :
    convertStatus (convertEndpoint "/srv/downloads" (MAX_FILE_SIZE_MB * 1024 * 1024 * 2)
      "123e4567-e89b-42d3-a456-426614174000"
      "https://www.youtube.com/watch?v=dQw4w9WgXcQ" "high").1 = 200 ∧
    (convertEndpoint "/srv/downloads" (MAX_FILE_SIZE_MB * 1024 * 1024 * 2)
      "123e4567-e89b-42d3-a456-426614174000"
      "https://www.youtube.com/watch?v=dQw4w9WgXcQ" "high").2.isSome = true ∧
    ¬ (MAX_FILE_SIZE_MB * 1024 * 1024 * 2 > MAX_FILE_SIZE_MB * 1024 * 1024 * 2) := by
  decide

/-- Claim C3 (amended): for every valid POST `/convert` request, if free
space is strictly below twice the maximum file size the response is 507
and no background job is scheduled; the acceptance precondition is
non-strict — free space at least (not strictly exceeding) twice the
maximum suffices, and then a job is scheduled. -/
theorem convert_storage_guard (folder : String) (free : Nat) (fid url q : String)
    (hurl : validate_youtube_url url = true) (hq : validate_quality q = true) :
    (free < MAX_FILE_SIZE_MB * 1024 * 1024 * 2 →
      convertEndpoint folder free fid url q =
        (.err ⟨507, "Insufficient storage space. Please try again later."⟩, none)) ∧
    (MAX_FILE_SIZE_MB * 1024 * 1024 * 2 ≤ free →
      convertStatus (convertEndpoint folder free fid url q).1 = 200 ∧
      (convertEndpoint folder free fid url q).2.isSome = true) := by
  unfold convertEndpoint convertHandler
  constructor
  · intro hlt
    simp [hurl, hq, hlt]
  · intro hge
    have hnlt : ¬ free < MAX_FILE_SIZE_MB * 1024 * 1024 * 2 := by omega
    simp [hurl, hq, hnlt, convertStatus]

/-- Witness for `convert_storage_guard` with no free space at all. -/
theorem convert_storage_guard_witness :
    convertEndpoint "/srv/downloads" 0 "123e4567-e89b-42d3-a456-426614174000"
        "https://www.youtube.com/watch?v=dQw4w9WgXcQ" "high" =
      (.err ⟨507, "Insufficient storage space. Please try again later."⟩, none) :=
  (convert_storage_guard "/srv/downloads" 0 "123e4567-e89b-42d3-a456-426614174000"
    "https://www.youtube.com/watch?v=dQw4w9WgXcQ" "high" (by decide) (by decide)).1 (by decide)

/-- Claim C6: for every POST `/convert` request with a well-formed
YouTube-style URL and a recognised quality, when free space is at least
twice the maximum file size, the response is 200 carrying
`download_url = "/download/" ++ token` where the generated token is
36 characters long, the status field `"processing"` and an estimated wait
time, and the extraction job is merely scheduled — the response is
computed without any input from the extraction's outcome. -/
theorem convert_valid_request_success (folder : String) (free : Nat) (fid url q : String)
    (hurl : validate_youtube_url url = true)
    (hq : validate_quality q = true)
    (hfree : MAX_FILE_SIZE_MB * 1024 * 1024 * 2 ≤ free)
    (hfid : isUuid4String fid = true) :
    convertEndpoint folder free fid url q =
      (.ok ⟨"/download/" ++ fid, "processing",
        "Your file is being processed. Please wait a few moments before downloading.",
        "15-30 seconds"⟩,
       some ⟨url, q, convertOutputPath folder fid⟩) ∧
    fid.length = 36 := by
  refine ⟨?_, length_36_of_isUuid4String fid hfid⟩
  unfold convertEndpoint convertHandler
  have hnlt : ¬ free < MAX_FILE_SIZE_MB * 1024 * 1024 * 2 := by omega
  simp [hurl, hq, hnlt]

/-- Witness for `convert_valid_request_success` at a concrete UUID4 token
and a concrete YouTube watch URL. -/
theorem convert_valid_request_success_witness :
    convertEndpoint "/srv/downloads" 209715200 "123e4567-e89b-42d3-a456-426614174000"
        "https://www.youtube.com/watch?v=dQw4w9WgXcQ" "high" =
      (.ok ⟨"/download/" ++ "123e4567-e89b-42d3-a456-426614174000", "processing",
        "Your file is being processed. Please wait a few moments before downloading.",
        "15-30 seconds"⟩,
       some ⟨"https://www.youtube.com/watch?v=dQw4w9WgXcQ", "high",
         convertOutputPath "/srv/downloads" "123e4567-e89b-42d3-a456-426614174000"⟩) ∧
    ("123e4567-e89b-42d3-a456-426614174000" : String).length = 36 :=
  convert_valid_request_success "/srv/downloads" 209715200
    "123e4567-e89b-42d3-a456-426614174000" "https://www.youtube.com/watch?v=dQw4w9WgXcQ"
    "high" (by decide) (by decide) (by decide) (by decide)

/-- Claim C7: in one sweep of the retention loop, every listed file whose
age (now minus last-modified time) strictly exceeds the 24-hour retention
window is removed, every file aged 24 hours or less is kept, and the loop
waits a fixed hour (`cleanupSleepSeconds`) before repeating. -/
theorem cleanup_retention (now : Int) (files : List FileEntry) (f : FileEntry)
    (hmem : f ∈ files) :
    (now - f.mtime > (FILE_RETENTION_HOURS : Int) * 3600 → f ∉ cleanup_sweep now files) ∧
    (now - f.mtime ≤ (FILE_RETENTION_HOURS : Int) * 3600 → f ∈ cleanup_sweep now files) ∧
    cleanupSleepSeconds = 3600 := by
  unfold cleanup_sweep
  refine ⟨?_, ?_, rfl⟩
  · intro hage hcontra
    rw [List.mem_filter] at hcontra
    have h2 := hcontra.2
    simp only [Bool.not_eq_true', decide_eq_false_iff_not] at h2
    exact h2 hage
  · intro hage
    rw [List.mem_filter]
    refine ⟨hmem, ?_⟩
    simp only [Bool.not_eq_true', decide_eq_false_iff_not]
    omega

/-- Witness for `cleanup_retention`: at time zero, a file last modified
25 hours ago (90000 seconds) is removed by the sweep and a file modified
23 hours ago (82800 seconds) survives it. -/
theorem cleanup_retention_witness :
    (⟨"old", -90000⟩ : FileEntry) ∉
      cleanup_sweep 0 [⟨"old", -90000⟩, ⟨"new", -82800⟩] ∧
    (⟨"new", -82800⟩ : FileEntry) ∈
      cleanup_sweep 0 [⟨"old", -90000⟩, ⟨"new", -82800⟩] :=
  ⟨(cleanup_retention 0 [⟨"old", -90000⟩, ⟨"new", -82800⟩] ⟨"old", -90000⟩
      (by decide)).1 (by decide),
   (cleanup_retention 0 [⟨"old", -90000⟩, ⟨"new", -82800⟩] ⟨"new", -82800⟩
      (by decide)).2.1 (by decide)⟩

/-- Claim C8: for every run of the background extraction job, if the tool
succeeds but the produced file exceeds the 100MB limit, the file is
deleted and the job fails; if the tool fails, any partial file is deleted
and the job fails; in both cases no file remains at the destination, so
the stored audio file never materialises. -/
theorem download_audio_failure_leaves_no_file (run : ToolRun) :
    (run.success = true → run.produced = true →
      run.sizeBytes > MAX_FILE_SIZE_MB * 1024 * 1024 →
      (download_audio run).1 = false ∧ (download_audio run).2 ≠ .done) ∧
    (run.success = false →
      (download_audio run).1 = false ∧ (download_audio run).2 ≠ .done) := by
  obtain ⟨s, p, n⟩ := run
  constructor
  · intro hs hp hn
    subst hs
    subst hp
    unfold download_audio
    simp [hn]
  · intro hs
    subst hs
    unfold download_audio
    simp

/-- Witness for `download_audio_failure_leaves_no_file`: a successful tool
run whose output is one byte over the 100MB limit leaves no file and no
completed job, and a failed tool run that left a partial file leaves no
file and no completed job. -/
theorem download_audio_failure_leaves_no_file_witness :
    ((download_audio ⟨true, true, 104857601⟩).1 = false ∧
      (download_audio ⟨true, true, 104857601⟩).2 ≠ .done) ∧
    ((download_audio ⟨false, true, 17⟩).1 = false ∧
      (download_audio ⟨false, true, 17⟩).2 ≠ .done) :=
  ⟨(download_audio_failure_leaves_no_file ⟨true, true, 104857601⟩).1 rfl rfl (by decide),
   (download_audio_failure_leaves_no_file ⟨false, true, 17⟩).2 rfl⟩
